import Mathlib

/-!
SpecifierReferenceViewer: the `UPlaceholder` class.

The repository consists of one header,
`Source/SpecifierReferenceViewer/Private/Placeholder.h`. After `pragma once`
and the include of `Placeholder.generated.h`, it declares the class
`UPlaceholder`, marked `UCLASS()`, exported with `SPECIFIERREFERENCEVIEWER_API`,
deriving publicly from `UObject`, whose body holds the single item
`GENERATED_BODY()`.

The header is embedded as data (the declaration as it is written), and the
class's own state is the record which assigns a value to every data member
the declaration lists.
-/

namespace SpecifierReferenceViewer

/-- Access specifier written in front of a base class. -/
inductive Access where
  | pub
  | prot
  | priv
  deriving DecidableEq, Repr

/-- One entry of a base-class list, e.g. `public UObject`. -/
structure BaseClause where
  access : Access
  base : String
  deriving DecidableEq, Repr

/-- One item written between the braces of a class declaration. -/
inductive BodyItem where
  /-- The reflection marker `GENERATED_BODY()`. -/
  | generatedBody
  /-- A data member `type ident;`. -/
  | dataMember (type ident : String)
  /-- A member function declared or defined in the class. -/
  | memberFunction (ident : String)
  deriving DecidableEq, Repr

/-- A class declaration as written in a header. -/
structure ClassDecl where
  /-- Arguments of the `UCLASS(...)` line in front of the class, `none` when
  the class carries no `UCLASS` line. -/
  uclass : Option (List String)
  /-- The export symbol between `class` and the class name. -/
  api : String
  ident : String
  bases : List BaseClause
  body : List BodyItem
  deriving DecidableEq, Repr

/-- A header file: its include lines, the classes it declares and the free
functions it declares. -/
structure Header where
  pragmaOnce : Bool
  includes : List String
  classes : List ClassDecl
  freeFunctions : List String
  deriving DecidableEq, Repr

/-- The data members a class declaration lists, as (type, name) pairs. -/
def dataMembers (d : ClassDecl) : List (String × String) :=
  d.body.filterMap fun item =>
    match item with
    | BodyItem.dataMember t n => some (t, n)
    | _ => none

/-- The member functions a class declaration lists. -/
def memberFunctions (d : ClassDecl) : List String :=
  d.body.filterMap fun item =>
    match item with
    | BodyItem.memberFunction n => some n
    | _ => none

/-- The operations a header declares: the free functions and the member
functions of each of its classes. -/
def operations (h : Header) : List String :=
  h.freeFunctions ++ h.classes.flatMap memberFunctions

/-- Own state of a class over a universe `V` of member values: one value for
each data member the declaration lists (state of base classes apart). -/
def OwnState (V : Type) (d : ClassDecl) : Type :=
  Fin (dataMembers d).length → V

/-- The declaration `class SPECIFIERREFERENCEVIEWER_API UPlaceholder : public UObject`
of `Placeholder.h`, lines 12 to 16. -/
def UPlaceholderDecl : ClassDecl where
  uclass := some []
  api := "SPECIFIERREFERENCEVIEWER_API"
  ident := "UPlaceholder"
  bases := [⟨Access.pub, "UObject"⟩]
  body := [BodyItem.generatedBody]

/-- The header `Placeholder.h`. -/
def PlaceholderHeader : Header where
  pragmaOnce := true
  includes := ["Placeholder.generated.h"]
  classes := [UPlaceholderDecl]
  freeFunctions := []

/-- Own state of `UPlaceholder` over a universe `V` of member values. -/
abbrev UPlaceholder (V : Type) : Type := OwnState V UPlaceholderDecl

/-! General facts about declarations. -/

/-- A class that lists no data member has at most one own state. -/
theorem ownState_eq_of_no_dataMembers (V : Type) (d : ClassDecl)
    (h : dataMembers d = []) (a b : OwnState V d) : a = b := by
  funext i
  have hi := i.isLt
  simp [h] at hi

/-- A class that lists a data member has two different own states as soon as
the value universe has two different values: the record is not trivial in
general. -/
theorem ownState_ne_of_dataMember :
    ∃ a b : OwnState Bool
      { UPlaceholderDecl with body := [BodyItem.generatedBody, BodyItem.dataMember "bool" "bFlag"] },
      a ≠ b := by
  refine ⟨fun _ => true, fun _ => false, ?_⟩
  intro h
  have := congrFun h ⟨0, by decide⟩
  simp at this

/-! The class `UPlaceholder`. -/

/-- C1: `UPlaceholder` is an empty class. Its declaration lists no data member
and no member function, its body is the single item `GENERATED_BODY()`, and its
only base is `UObject`, inherited publicly. The header declares one class and
no operation at all. The record of the declared data members therefore has no
field: any two own states of `UPlaceholder` are equal, every map from own states
to own states leaves the state as it is, and every observation of an own state
gives the same result on all states. -/
theorem UPlaceholder_is_empty_class :
    dataMembers UPlaceholderDecl = [] ∧
    memberFunctions UPlaceholderDecl = [] ∧
    UPlaceholderDecl.body = [BodyItem.generatedBody] ∧
    UPlaceholderDecl.uclass = some [] ∧
    UPlaceholderDecl.bases = [⟨Access.pub, "UObject"⟩] ∧
    PlaceholderHeader.classes = [UPlaceholderDecl] ∧
    operations PlaceholderHeader = [] ∧
    (∀ (V : Type) (a b : UPlaceholder V), a = b) ∧
    (∀ (V : Type) (op : UPlaceholder V → UPlaceholder V) (s : UPlaceholder V), op s = s) ∧
    (∀ (V α : Type) (read : UPlaceholder V → α) (s t : UPlaceholder V), read s = read t) := by
  have hsub : ∀ (V : Type) (a b : UPlaceholder V), a = b :=
    fun V a b => ownState_eq_of_no_dataMembers V UPlaceholderDecl rfl a b
  refine ⟨rfl, rfl, rfl, rfl, rfl, rfl, rfl, hsub, ?_, ?_⟩
  · intro V op s
    exact hsub V (op s) s
  · intro V α read s t
    rw [hsub V s t]

end SpecifierReferenceViewer
